import Mathlib

/-!
Shallow embedding of the cosinc capture pipeline
(`src/electron/services/*.ts`, `src/electron/DatabaseHelper.ts`)
together with proofs about the spec's claims.

Machine-level effects (file system, SQLite, HTTP, AppleScript) are
modelled by explicit state passing: the world supplies each fallible
call's outcome and the functions thread the aggregator state through.
-/

namespace Cosinc

/-! ## ClipboardCapture (src/electron/services/ClipboardCapture.ts) -/

/-- Characters removed by `sanitizeText`'s control-character regexes
(`/\0/g` followed by the class x00-x08, x0B, x0C, x0E-x1F, x7F). -/
def isStrippedControl (c : Char) : Bool :=
  c.toNat ≤ 0x08 || c.toNat == 0x0B || c.toNat == 0x0C ||
  (0x0E ≤ c.toNat && c.toNat ≤ 0x1F) || c.toNat == 0x7F

/-- JavaScript `String.prototype.trim` whitespace set (the members that
matter to this code base). -/
def isJsWhitespace (c : Char) : Bool :=
  c == ' ' || c == '\t' || c == '\n' || c == '\r' ||
  c.toNat == 0x0B || c.toNat == 0x0C || c.toNat == 0xA0 ||
  c.toNat == 0x2028 || c.toNat == 0x2029 || c.toNat == 0xFEFF

/-- JavaScript `text.trim()` on a character list. -/
def trimChars (l : List Char) : List Char :=
  ((l.dropWhile isJsWhitespace).reverse.dropWhile isJsWhitespace).reverse

/-- `ClipboardCapture.maxLength`. -/
def maxLength : Nat := 10000

/-- The marker appended by `sanitizeText` when the text is cut at
`maxLength`. -/
def truncationMarker : List Char := "... [truncated]".data

/-- `ClipboardCapture.sanitizeText`: early-return `null` on empty or
all-whitespace input, strip control characters, trim, cap the length
appending the marker, and return `null` when nothing is left. -/
def sanitizeText (text : List Char) : Option (List Char) :=
  if text = [] ∨ (trimChars text).length = 0 then none
  else
    let stripped := text.filter (fun c => !isStrippedControl c)
    let trimmed := trimChars stripped
    let limited :=
      if maxLength < trimmed.length then trimmed.take maxLength ++ truncationMarker
      else trimmed
    if 0 < limited.length then some limited else none

/-! ## BrowserTabCapture (src/electron/services/BrowserTabCapture.ts) -/

structure BrowserTab where
  title : String
  url : String
  domain : String
  browser : Option String
deriving DecidableEq

/-- The loop body of `deduplicateTabs`: `seen` is the set of URLs already
emitted (a list models the JS `Set`). -/
def dedupGo (seen : List String) : List BrowserTab → List BrowserTab
  | [] => []
  | t :: rest =>
      if t.url ∈ seen then dedupGo seen rest
      else t :: dedupGo (t.url :: seen) rest

/-- `BrowserTabCapture.deduplicateTabs`. -/
def deduplicateTabs (tabs : List BrowserTab) : List BrowserTab :=
  dedupGo [] tabs

/-- The `Promise.allSettled` collection loop of `captureTabs`: a `none`
entry is a rejected browser query (skipped), a `some` entry is a
fulfilled one whose tabs are appended in order. -/
def collectSettled (results : List (Option (List BrowserTab))) : List BrowserTab :=
  results.foldl
    (fun acc r => match r with | some tabs => acc ++ tabs | none => acc) []

/-- `BrowserTabCapture.captureTabs` downstream of the per-browser
queries: aggregate the settled results, deduplicate by URL, keep the
first 50. -/
def captureTabs (results : List (Option (List BrowserTab))) : List BrowserTab :=
  (deduplicateTabs (collectSettled results)).take 50

/-- Abstraction of the platform URL parser (`new URL(url)`): `none`
models the constructor throwing on an invalid URL. -/
structure URLHost where
  hostname : String
deriving DecidableEq

/-- The index-stepping pairing loop of `parseAppleScriptTabOutput`
(`i += 2` while `i < parts.length - 1`): a trailing odd element is
dropped. -/
def pairUp : List String → List (String × String)
  | a :: b :: rest => (a, b) :: pairUp rest
  | _ => []

/-- Body of the parse loop: skip falsy (empty) url/title, skip pairs
whose URL fails to parse, otherwise build the tab with
`domain = urlObj.hostname`. -/
def tabsFromPairs (parseURL : String → Option URLHost) (browser : String) :
    List (String × String) → List BrowserTab
  | [] => []
  | (url, title) :: rest =>
      if url = "" ∨ title = "" then tabsFromPairs parseURL browser rest
      else
        match parseURL url with
        | some h =>
            { url := url, title := title, domain := h.hostname,
              browser := some browser } :: tabsFromPairs parseURL browser rest
        | none => tabsFromPairs parseURL browser rest

/-- JavaScript `s.trim()` on a string. -/
def trimString (s : String) : String :=
  ⟨trimChars s.data⟩

/-- JavaScript `s.split(',')` on a character list: splitting the empty
string yields one empty field. -/
def splitOnCommaChars : List Char → List (List Char)
  | [] => [[]]
  | c :: rest =>
      if c = ',' then [] :: splitOnCommaChars rest
      else
        match splitOnCommaChars rest with
        | s :: ss => (c :: s) :: ss
        | [] => [[c]]

/-- JavaScript `s.split(',')`. -/
def splitOnComma (s : String) : List String :=
  (splitOnCommaChars s.data).map String.mk

/-- `BrowserTabCapture.parseAppleScriptTabOutput`. -/
def parseAppleScriptTabOutput (parseURL : String → Option URLHost)
    (output : String) (browser : String) : List BrowserTab :=
  if trimString output = "" then []
  else
    let parts := (splitOnComma output).map trimString
    tabsFromPairs parseURL browser (pairUp parts)

/-! ## WebhookService (src/electron/services/WebhookService.ts) -/

/-- Outcome of one `axios.post` attempt: a resolved response, an
`AxiosError` carrying an HTTP response status, or an error without a
response (timeout / network). -/
inductive AttemptOutcome where
  | success (status : Nat)
  | httpError (status : Nat) (message : String)
  | netError (message : String)
deriving DecidableEq

/-- `error.message` of a failed attempt (unused for resolved
responses). -/
def outcomeMessage : AttemptOutcome → String
  | .success _ => ""
  | .httpError _ m => m
  | .netError m => m

/-- An attempt outcome that `send` retries on: any failure that is not
a client-error (4xx) response. -/
def isRetryableFailure : AttemptOutcome → Bool
  | .success _ => false
  | .httpError s _ => !(400 ≤ s && s < 500)
  | .netError _ => true

/-- An attempt outcome that `send` treats as terminal: an error
response with status in 400..499. -/
def isClientError : AttemptOutcome → Bool
  | .httpError s _ => 400 ≤ s && s < 500
  | _ => false

structure WebhookResponse where
  success : Bool
  error : Option String
  statusCode : Option Nat
deriving DecidableEq

/-- Result of `WebhookService.send` enriched with the observable retry
behaviour: how many attempts ran and which backoff delays (ms) were
awaited between attempts. -/
structure SendTrace where
  attempts : Nat
  delays : List Nat
  response : WebhookResponse
deriving DecidableEq

/-- `WebhookService.maxRetries`. -/
def maxRetries : Nat := 3

/-- `WebhookService.retryDelayMs`. -/
def retryDelayMs : Nat := 1000

/-- The retry loop of `WebhookService.send`. `remaining` counts the
attempts still allowed (loop guard `attempt <= maxRetries`), `attempt`
is the 1-based attempt number, `delays` accumulates the awaited
backoffs in reverse, `lastErr` is the last caught error message. -/
def sendLoop (outcomes : Nat → AttemptOutcome) :
    Nat → Nat → List Nat → Option String → SendTrace
  | 0, attempt, delays, lastErr =>
      { attempts := attempt - 1, delays := delays.reverse,
        response := { success := false,
                      error := some (lastErr.getD "Unknown error"),
                      statusCode := none } }
  | remaining + 1, attempt, delays, _lastErr =>
      match outcomes attempt with
      | .success s =>
          { attempts := attempt, delays := delays.reverse,
            response := { success := true, error := none, statusCode := some s } }
      | .httpError s msg =>
          if 400 ≤ s ∧ s < 500 then
            { attempts := attempt, delays := delays.reverse,
              response := { success := false,
                            error := some ("Client error: " ++ toString s),
                            statusCode := some s } }
          else if remaining = 0 then
            sendLoop outcomes remaining (attempt + 1) delays (some msg)
          else
            sendLoop outcomes remaining (attempt + 1)
              (retryDelayMs * 2 ^ (attempt - 1) :: delays) (some msg)
      | .netError msg =>
          if remaining = 0 then
            sendLoop outcomes remaining (attempt + 1) delays (some msg)
          else
            sendLoop outcomes remaining (attempt + 1)
              (retryDelayMs * 2 ^ (attempt - 1) :: delays) (some msg)

/-- `WebhookService.send`, parameterised by the outcome of each HTTP
attempt (`outcomes n` is what attempt number `n` yields). -/
def send (outcomes : Nat → AttemptOutcome) : SendTrace :=
  sendLoop outcomes maxRetries 1 [] none

/-! ## ActiveWindowCapture (src/electron/services/ActiveWindowCapture.ts) -/

/-- JavaScript `s || d` on an optional string: `null`/`undefined` and
the empty string are falsy. -/
def jsOrDefault (s : Option String) (d : String) : String :=
  match s with
  | some t => if t = "" then d else t
  | none => d

/-- Result of `getFrontmostApp` (`none` models that query failing). -/
structure FrontmostApp where
  name : String
  bundleId : Option String
deriving DecidableEq

structure ActiveWindowInfo where
  app : String
  title : String
  bundleId : Option String
deriving DecidableEq

/-- Outcomes of the two independent AppleScript queries raced inside
`captureActiveWindow`. -/
structure ActiveWindowWorld where
  appInfo : Option FrontmostApp
  windowTitle : Option String
deriving DecidableEq

/-- `ActiveWindowCapture.captureActiveWindow`: both queries run; when
`getFrontmostApp` yields nothing the whole result is `null`, otherwise
the title falls back to "Unknown" via `windowTitle || 'Unknown'`. -/
def captureActiveWindow (w : ActiveWindowWorld) : Option ActiveWindowInfo :=
  match w.appInfo with
  | none => none
  | some ai =>
      some { app := ai.name,
             title := jsOrDefault w.windowTitle "Unknown",
             bundleId := ai.bundleId }

/-! ## DatabaseHelper (src/electron/DatabaseHelper.ts) -/

inductive ClipType where
  | plain
  | html
deriving DecidableEq

structure ClipboardContent where
  text : String
  type : ClipType
deriving DecidableEq

inductive CaptureMethod where
  | hotkey
  | manual
deriving DecidableEq

inductive ProcessingStatus where
  | pending
  | processing
  | complete
  | error
deriving DecidableEq

/-- The `activeWindow` field of a `CapturedContext`. -/
structure ActiveWindowField where
  app : String
  title : String
  bundleId : Option String
  screenshot : Option String
deriving DecidableEq

structure CapturedContext where
  id : String
  timestamp : Int
  activeWindow : ActiveWindowField
  browserTabs : List BrowserTab
  clipboard : Option ClipboardContent
  os : String
  captureMethod : CaptureMethod
  processingStatus : ProcessingStatus
deriving DecidableEq

/-- One row of the `captures` table. -/
structure CaptureRecord where
  id : String
  timestamp : Int
  app_name : String
  window_title : String
  tabs_count : Nat
  has_clipboard : Bool
  screenshot_path : String
  json_path : String
  webhook_sent : Bool
  webhook_sent_at : Option Int
deriving DecidableEq

/-- The `captures` table. -/
abbrev Db := List CaptureRecord

structure CaptureInsertData where
  id : String
  timestamp : Int
  appName : String
  windowTitle : String
  tabsCount : Nat
  hasClipboard : Bool
  screenshotPath : String
  jsonPath : String
deriving DecidableEq

namespace DatabaseHelper

/-- `DatabaseHelper.insertCapture`: INSERT with `webhook_sent = 0` and
no `webhook_sent_at`. -/
def insertCapture (data : CaptureInsertData) (db : Db) : Db :=
  List.append db
    [{ id := data.id, timestamp := data.timestamp,
       app_name := data.appName, window_title := data.windowTitle,
       tabs_count := data.tabsCount, has_clipboard := data.hasClipboard,
       screenshot_path := data.screenshotPath, json_path := data.jsonPath,
       webhook_sent := false, webhook_sent_at := none }]

/-- Insertion step of the `ORDER BY timestamp DESC` reading of the
table. -/
def insertDesc (r : CaptureRecord) : List CaptureRecord → List CaptureRecord
  | [] => [r]
  | x :: xs => if x.timestamp < r.timestamp then r :: x :: xs else x :: insertDesc r xs

/-- Rows sorted newest first (`ORDER BY timestamp DESC`). -/
def sortByTimestampDesc : List CaptureRecord → List CaptureRecord
  | [] => []
  | x :: xs => insertDesc x (sortByTimestampDesc xs)

/-- `DatabaseHelper.getCaptures`: newest `limit` rows. -/
def getCaptures (limit : Nat) (db : Db) : List CaptureRecord :=
  (sortByTimestampDesc db).take limit

/-- `DatabaseHelper.getCapture`: `SELECT * FROM captures WHERE id = ?`. -/
def getCapture (id : String) (db : Db) : Option CaptureRecord :=
  db.find? (fun r => r.id == id)

/-- `DatabaseHelper.updateWebhookStatus`: unconditionally writes the
`sent` flag and stamps `webhook_sent_at` only when `sent` is true. -/
def updateWebhookStatus (id : String) (sent : Bool) (now : Int) (db : Db) : Db :=
  db.map (fun r =>
    if r.id = id then
      { r with webhook_sent := sent,
               webhook_sent_at := if sent then some now else none }
    else r)

/-- `DatabaseHelper.deleteCapture`: `DELETE FROM captures WHERE id = ?`. -/
def deleteCapture (id : String) (db : Db) : Db :=
  db.filter (fun r => decide (¬ r.id = id))

end DatabaseHelper

/-! ## ContextAggregator (src/electron/services/BrowserTabCapture.ts,
second compilation unit) -/

/-- In-memory and durable state owned by one `ContextAggregator` (plus
its `DatabaseHelper`). A blob entry's `none` payload models a JSON file
that exists but no longer parses. -/
structure AggState where
  latestCapture : Option CapturedContext
  blobs : List (String × Option CapturedContext)
  db : Db
deriving DecidableEq

/-- `ContextAggregator.getLatestCapture`. -/
def getLatestCapture (st : AggState) : Option CapturedContext :=
  st.latestCapture

/-- `ContextAggregator.loadCapture`: read and parse the JSON blob,
`null` when the file is absent or unparsable. -/
def loadCapture (st : AggState) (id : String) : Option CapturedContext :=
  match st.blobs.find? (fun b => b.1 == id) with
  | some (_, some ctx) => some ctx
  | _ => none

/-- `ContextAggregator.sendToWebhook` after the HTTP exchange resolved
to `resp`: record `resp.success` in the index row. -/
def sendToWebhook (resp : WebhookResponse) (now : Int) (captureId : String)
    (st : AggState) : AggState :=
  { st with db := DatabaseHelper.updateWebhookStatus captureId resp.success now st.db }

structure OpResult where
  success : Bool
  error : Option String
deriving DecidableEq

/-- `ContextAggregator.retryWebhook`: not-found when the blob is absent
or unparsable, otherwise deliver synchronously and return
`{success: true}`. -/
def retryWebhook (resp : WebhookResponse) (now : Int) (id : String)
    (st : AggState) : OpResult × AggState :=
  match loadCapture st id with
  | none => ({ success := false, error := some "Capture not found" }, st)
  | some _ => ({ success := true, error := none }, sendToWebhook resp now id st)

/-- `ContextAggregator.deleteCapture`: best-effort removal of blob,
screenshot file and index row (missing files are not errors). -/
def deleteCaptureOp (id : String) (st : AggState) : OpResult × AggState :=
  ({ success := true, error := none },
   { st with blobs := st.blobs.filter (fun b => decide (¬ b.1 = id)),
             db := DatabaseHelper.deleteCapture id st.db })

structure CaptureResult where
  success : Bool
  captureId : Option String
  error : Option String
deriving DecidableEq

/-- Side effects observable during one `captureContext` call, in
order. -/
inductive Event where
  | hideWindow
  | settle
  | grab
  | showWindow
  | writeBlob (id : String)
  | insertRow (id : String)
  | fireWebhook (id : String)
deriving DecidableEq

/-- Environment of one `captureContext` call: the fresh identity and
clock, each adapter's (already failure-absorbed) result, the screen
grab outcome, and whether the two durable writes throw (`some msg`
models a throw with that error message). -/
structure CaptureWorld where
  captureId : String
  timestamp : Int
  activeWindow : Option ActiveWindowInfo
  browserTabs : List BrowserTab
  clipboard : Option ClipboardContent
  screenshotBase64 : Option String
  blobWriteError : Option String
  insertError : Option String
  os : String
deriving DecidableEq

/-- The `CapturedContext` assembled at the end of the fan-out. -/
def assembleContext (w : CaptureWorld) (method : CaptureMethod) : CapturedContext :=
  { id := w.captureId, timestamp := w.timestamp,
    activeWindow :=
      { app := jsOrDefault (w.activeWindow.map (·.app)) "Unknown",
        title := jsOrDefault (w.activeWindow.map (·.title)) "Unknown",
        bundleId := w.activeWindow.bind (·.bundleId),
        screenshot := w.screenshotBase64 },
    browserTabs := w.browserTabs,
    clipboard := w.clipboard,
    os := w.os,
    captureMethod := method,
    processingStatus := .pending }

/-- The index row inserted by step 6 of `captureContext`. -/
def captureInsertData (w : CaptureWorld) : CaptureInsertData :=
  { id := w.captureId, timestamp := w.timestamp,
    appName := jsOrDefault (w.activeWindow.map (·.app)) "Unknown",
    windowTitle := jsOrDefault (w.activeWindow.map (·.title)) "Unknown",
    tabsCount := w.browserTabs.length,
    hasClipboard := w.clipboard.isSome,
    screenshotPath := "capture_screenshots/" ++ w.captureId ++ ".png",
    jsonPath := "captures/" ++ w.captureId ++ ".json" }

/-- `ContextAggregator.captureContext`: fan out the adapters, run the
hide/settle/grab/show block (the grab may fail without aborting),
assemble the context, set the latest-capture slot, write the JSON blob,
insert the index row, fire the webhook asynchronously. A thrown blob
write or index insert is caught by the outer handler, which returns
`{success: false}` with the error's message. -/
def captureContext (w : CaptureWorld) (method : CaptureMethod)
    (hideHook showHook : Bool) (st : AggState) :
    CaptureResult × AggState × List Event :=
  let hideE : List Event := if hideHook then [.hideWindow] else []
  let showE : List Event := if showHook then [.showWindow] else []
  let screenshotEvents := hideE ++ [.settle, .grab] ++ showE
  let ctx := assembleContext w method
  let stLatest := { st with latestCapture := some ctx }
  match w.blobWriteError with
  | some msg =>
      ({ success := false, captureId := none, error := some msg },
       stLatest, screenshotEvents)
  | none =>
      let stBlob := { stLatest with
        blobs := stLatest.blobs ++ [(w.captureId, some ctx)] }
      let events := screenshotEvents ++ [.writeBlob w.captureId]
      match w.insertError with
      | some msg =>
          ({ success := false, captureId := none, error := some msg },
           stBlob, events)
      | none =>
          let stDb := { stBlob with
            db := DatabaseHelper.insertCapture (captureInsertData w) stBlob.db }
          ({ success := true, captureId := some w.captureId, error := none },
           stDb, events ++ [.insertRow w.captureId, .fireWebhook w.captureId])

/-- Result of `ContextAggregator.cleanupOldCaptures`. -/
structure CleanupResult where
  deletedCount : Nat
  vacuumed : Bool
  state : AggState
deriving DecidableEq

/-- Loop body of `cleanupOldCaptures`: delete every scanned row older
than the cutoff via `deleteCapture`, counting deletions. -/
def cleanupStep (cutoff : Int) (acc : AggState × Nat) (c : CaptureRecord) :
    AggState × Nat :=
  if c.timestamp < cutoff then ((deleteCaptureOp c.id acc.1).2, acc.2 + 1)
  else acc

/-- `ContextAggregator.cleanupOldCaptures`: scan the newest 1000 index
rows, delete the ones older than `now - daysOld*24h`, vacuum when
anything was deleted. -/
def cleanupOldCaptures (now daysOld : Int) (st : AggState) : CleanupResult :=
  let cutoff := now - daysOld * 86400000
  let allCaptures := DatabaseHelper.getCaptures 1000 st.db
  let res := allCaptures.foldl (cleanupStep cutoff) (st, 0)
  { deletedCount := res.2, vacuumed := 0 < res.2, state := res.1 }

/-! ## Concrete inputs used by counterexamples and witnesses -/

/-- An aggregator state with no capture yet. -/
def emptyState : AggState := { latestCapture := none, blobs := [], db := [] }

/-- A fully degraded capture context for id "a" at time 0. -/
def ctx0 : CapturedContext :=
  { id := "a", timestamp := 0,
    activeWindow := { app := "Unknown", title := "Unknown", bundleId := none,
                      screenshot := none },
    browserTabs := [], clipboard := none, os := "darwin",
    captureMethod := .hotkey, processingStatus := .pending }

/-- A capture world whose adapters all degrade, whose blob write
succeeds, and whose index insert throws. -/
def c1World : CaptureWorld :=
  { captureId := "cap1", timestamp := 10, activeWindow := none,
    browserTabs := [], clipboard := none, screenshotBase64 := none,
    blobWriteError := none, insertError := some "database is locked",
    os := "darwin" }

/-- A capture world where every step succeeds. -/
def okWorld : CaptureWorld :=
  { captureId := "cap1", timestamp := 10, activeWindow := none,
    browserTabs := [], clipboard := none, screenshotBase64 := none,
    blobWriteError := none, insertError := none, os := "darwin" }

/-- A successful delivery outcome. -/
def okResp : WebhookResponse := { success := true, error := none, statusCode := some 200 }

/-- A failed delivery outcome (terminal 404). -/
def failResp : WebhookResponse :=
  { success := false, error := some "Client error: 404", statusCode := some 404 }

/-- One index row for the C5 counterexample, timestamped `t`. -/
def c5Row (t : Nat) : CaptureRecord :=
  { id := toString t, timestamp := (t : Int), app_name := "Unknown",
    window_title := "Unknown", tabs_count := 0, has_clipboard := false,
    screenshot_path := "", json_path := "", webhook_sent := false,
    webhook_sent_at := none }

/-- 1001 index rows with timestamps 1000 down to 0 (newest first). -/
def c5Db : Db := (List.range 1001).map (fun i => c5Row (1000 - i))

def tabA : BrowserTab :=
  { title := "A", url := "https://a.com/", domain := "a.com", browser := some "Chrome" }

def tabB : BrowserTab :=
  { title := "B", url := "https://b.com/", domain := "b.com", browser := some "Safari" }

/-- A concrete stand-in for the platform URL parser, accepting a single
URL. -/
def demoParseURL : String → Option URLHost :=
  fun s => if s = "https://a.com/x" then some { hostname := "a.com" } else none

/-! # Theorems -/

/-! ## Helper lemmas -/

theorem getCapture_updateWebhookStatus (id : String) (sent : Bool) (now : Int) (db : Db) :
    DatabaseHelper.getCapture id (DatabaseHelper.updateWebhookStatus id sent now db)
      = (DatabaseHelper.getCapture id db).map
          (fun r => { r with webhook_sent := sent,
                             webhook_sent_at := if sent then some now else none }) := by
  induction db with
  | nil => rfl
  | cons r rest ih =>
      by_cases h : r.id = id
      · simp [DatabaseHelper.getCapture, DatabaseHelper.updateWebhookStatus,
              List.find?_cons_of_pos, h]
      · simp only [DatabaseHelper.getCapture, DatabaseHelper.updateWebhookStatus,
          List.map_cons, if_neg h] at *
        rw [List.find?_cons_of_neg _ (by simp [h]),
            List.find?_cons_of_neg _ (by simp [h]), ih]

theorem trimChars_eq_nil_iff (l : List Char) :
    trimChars l = [] ↔ ∀ c ∈ l, isJsWhitespace c = true := by
  unfold trimChars
  rw [List.reverse_eq_nil_iff, List.dropWhile_eq_nil_iff]
  constructor
  · intro h c hc
    rw [← List.takeWhile_append_dropWhile isJsWhitespace l] at hc
    rcases List.mem_append.mp hc with h1 | h2
    · exact List.mem_takeWhile_imp h1
    · exact h c (List.mem_reverse.mpr h2)
  · intro h c hc
    exact h c ((List.dropWhile_sublist _).subset (List.mem_reverse.mp hc))

theorem trimChars_replicate {c : Char} (h : isJsWhitespace c = false) (n : Nat) :
    trimChars (List.replicate n c) = List.replicate n c := by
  unfold trimChars
  rw [List.dropWhile_replicate, if_neg (by simp [h]), List.reverse_replicate,
      List.dropWhile_replicate, if_neg (by simp [h]), List.reverse_replicate]

/-! ## Claim C7 -/

/-- The all-NUL clipboard input used to refute C7 as stated. -/
def c7Input : List Char := List.replicate 10001 (Char.ofNat 0)

theorem c7_sanitize_none : sanitizeText c7Input = none := by
  have hfilter : c7Input.filter (fun c => !isStrippedControl c) = [] := by
    unfold c7Input
    rw [List.filter_replicate, if_neg (by decide)]
  have htrim : trimChars c7Input = c7Input :=
    trimChars_replicate (by decide) 10001
  have hlen : c7Input.length = 10001 := by
    unfold c7Input
    rw [List.length_replicate]
  have hguard : ¬ (c7Input = [] ∨ (trimChars c7Input).length = 0) := by
    rw [htrim]
    rintro (hnil | h0)
    · rw [hnil] at hlen
      exact absurd hlen (by decide)
    · rw [hlen] at h0
      exact absurd h0 (by decide)
  unfold sanitizeText
  rw [if_neg hguard]
  simp only [hfilter]
  rfl

/-- Claim C7 counterexample: an input of 10001 NUL characters exceeds
the 10000-character cap, yet `sanitizeText` strips every character and
returns `null` — no truncation marker, no capped length. The cap is
measured on the control-stripped, trimmed text, not on the raw input. -/
theorem c7_counterexample :
    ¬ (∀ text : List Char, maxLength < text.length →
        ∃ s, sanitizeText text = some s ∧ truncationMarker <:+ s ∧
          s.length = maxLength + truncationMarker.length) := by
  intro hclaim
  obtain ⟨s, hs, -, -⟩ := hclaim c7Input
    (by unfold c7Input maxLength; rw [List.length_replicate]; omega)
  rw [c7_sanitize_none] at hs
  exact Option.noConfusion hs

/-- Claim C7 (amended): for every clipboard input whose
control-stripped and trimmed form is longer than the 10000-character
cap, the sanitized output ends with the truncation marker and its total
length equals the cap plus the marker's length. -/
theorem c7_sanitizeText_amended (text : List Char)
    (h : maxLength <
      (trimChars (text.filter (fun c => !isStrippedControl c))).length) :
    ∃ s, sanitizeText text = some s ∧ truncationMarker <:+ s ∧
      s.length = maxLength + truncationMarker.length := by
  have hmarker : truncationMarker.length = 15 := rfl
  have hguard : ¬ (text = [] ∨ (trimChars text).length = 0) := by
    rintro (rfl | hnil)
    · simp [trimChars, maxLength] at h
    · have htrim : trimChars text = [] := List.eq_nil_of_length_eq_zero hnil
      have hws := (trimChars_eq_nil_iff text).mp htrim
      have hall : trimChars (text.filter (fun c => !isStrippedControl c)) = [] :=
        (trimChars_eq_nil_iff _).mpr (fun c hc => hws c (List.mem_of_mem_filter hc))
      rw [hall] at h
      simp [maxLength] at h
  have hcalc : sanitizeText text =
      some ((trimChars (text.filter (fun c => !isStrippedControl c))).take maxLength
            ++ truncationMarker) := by
    unfold sanitizeText
    rw [if_neg hguard]
    simp only [if_pos h]
    rw [if_pos (by rw [List.length_append, hmarker]; omega)]
  refine ⟨_, hcalc, ⟨_, rfl⟩, ?_⟩
  rw [List.length_append, List.length_take, hmarker, maxLength] at *
  omega

/-- Witness for C7's amended theorem: 10001 copies of a printable
character survive sanitization intact and trigger truncation. -/
theorem c7_witness :
    ∃ s, sanitizeText (List.replicate 10001 (Char.ofNat 97)) = some s ∧
      truncationMarker <:+ s ∧
      s.length = maxLength + truncationMarker.length :=
  c7_sanitizeText_amended _ (by
    rw [List.filter_replicate, if_pos (by decide), trimChars_replicate (by decide),
        List.length_replicate]
    unfold maxLength
    omega)

/-! ## Claim C6 -/

theorem dedupGo_sublist (seen : List String) (l : List BrowserTab) :
    (dedupGo seen l).Sublist l := by
  induction l generalizing seen with
  | nil => simp [dedupGo]
  | cons t rest ih =>
      simp only [dedupGo]
      by_cases h : t.url ∈ seen
      · rw [if_pos h]
        exact (ih seen).trans (List.sublist_cons_self t rest)
      · rw [if_neg h]
        exact List.Sublist.cons₂ t (ih _)

theorem dedupGo_url_not_mem_seen (seen : List String) (l : List BrowserTab) :
    ∀ t ∈ dedupGo seen l, t.url ∉ seen := by
  induction l generalizing seen with
  | nil => simp [dedupGo]
  | cons a rest ih =>
      simp only [dedupGo]
      by_cases h : a.url ∈ seen
      · rw [if_pos h]
        exact ih seen
      · rw [if_neg h]
        intro t ht
        rcases List.mem_cons.mp ht with rfl | ht2
        · exact h
        · intro hm
          exact ih _ t ht2 (List.mem_cons_of_mem _ hm)

theorem dedupGo_find? (seen : List String) (l : List BrowserTab) :
    ∀ t ∈ dedupGo seen l, l.find? (fun x => x.url == t.url) = some t := by
  induction l generalizing seen with
  | nil => simp [dedupGo]
  | cons a rest ih =>
      simp only [dedupGo]
      by_cases h : a.url ∈ seen
      · rw [if_pos h]
        intro t ht
        have hne : a.url ≠ t.url := by
          intro he
          exact dedupGo_url_not_mem_seen seen rest t ht (he ▸ h)
        rw [List.find?_cons_of_neg _ (by simp [hne])]
        exact ih seen t ht
      · rw [if_neg h]
        intro t ht
        rcases List.mem_cons.mp ht with rfl | ht2
        · rw [List.find?_cons_of_pos _ (by simp)]
        · have hne : t.url ≠ a.url := by
            intro he
            exact dedupGo_url_not_mem_seen (a.url :: seen) rest t ht2
              (he ▸ List.mem_cons_self a.url seen)
          rw [List.find?_cons_of_neg _ (by simp [Ne.symm hne])]
          exact ih _ t ht2

theorem dedupGo_urls_nodup (seen : List String) (l : List BrowserTab) :
    ((dedupGo seen l).map (·.url)).Nodup := by
  induction l generalizing seen with
  | nil => simp [dedupGo]
  | cons a rest ih =>
      simp only [dedupGo]
      by_cases h : a.url ∈ seen
      · rw [if_pos h]
        exact ih seen
      · rw [if_neg h, List.map_cons]
        refine List.nodup_cons.mpr ⟨?_, ih _⟩
        intro hmem
        rcases List.mem_map.mp hmem with ⟨t, ht, hurl⟩
        exact dedupGo_url_not_mem_seen _ rest t ht
          (hurl ▸ List.mem_cons_self _ _)

/-- Claim C6: the aggregate of the per-browser tab results has pairwise
distinct URLs, at most 50 entries, is an order-preserving
subsequence of the concatenated per-browser results, and keeps for each
URL exactly the first tab carrying it. -/
theorem c6_captureTabs_dedup (results : List (Option (List BrowserTab))) :
    ((captureTabs results).map (·.url)).Nodup ∧
    (captureTabs results).length ≤ 50 ∧
    (captureTabs results).Sublist (collectSettled results) ∧
    ∀ t ∈ captureTabs results,
      (collectSettled results).find? (fun x => x.url == t.url) = some t := by
  refine ⟨?_, ?_, ?_, ?_⟩
  · rw [captureTabs, deduplicateTabs, List.map_take]
    exact List.Nodup.sublist (List.take_sublist _ _) (dedupGo_urls_nodup [] _)
  · simp [captureTabs]
  · exact (List.take_sublist _ _).trans (dedupGo_sublist [] _)
  · intro t ht
    rw [captureTabs, deduplicateTabs] at ht
    exact dedupGo_find? [] _ t (List.mem_of_mem_take ht)

/-- Witness for C6 at a concrete aggregation input (one rejected
branch, one duplicated URL): the duplicate's first occurrence is the
one kept. -/
theorem c6_witness :
    (collectSettled [some [tabA], none, some [tabB, tabA]]).find?
      (fun x => x.url == tabA.url) = some tabA :=
  (c6_captureTabs_dedup [some [tabA], none, some [tabB, tabA]]).2.2.2 tabA (by decide)

/-! ## Claim C10 -/

theorem collectSettled_go (results : List (Option (List BrowserTab)))
    (acc : List BrowserTab) :
    results.foldl
        (fun acc r => match r with | some tabs => acc ++ tabs | none => acc) acc
      = acc ++ (results.map (fun r => r.getD [])).flatten := by
  induction results generalizing acc with
  | nil => simp
  | cons r rest ih =>
      cases r with
      | none => simp [List.foldl_cons, ih]
      | some tabs => simp [List.foldl_cons, ih]

theorem mem_collectSettled {t : BrowserTab}
    {results : List (Option (List BrowserTab))} (ht : t ∈ collectSettled results) :
    ∃ l, some l ∈ results ∧ t ∈ l := by
  rw [collectSettled, collectSettled_go, List.nil_append, List.mem_flatten] at ht
  obtain ⟨l', hl', htl⟩ := ht
  rcases List.mem_map.mp hl' with ⟨r, hr, rfl⟩
  cases r with
  | none => simp at htl
  | some l => exact ⟨l, hr, htl⟩

theorem tabsFromPairs_urls (parseURL : String → Option URLHost) (browser : String)
    (pairs : List (String × String)) :
    ∀ tab ∈ tabsFromPairs parseURL browser pairs,
      ∃ h, parseURL tab.url = some h ∧ tab.domain = h.hostname := by
  induction pairs with
  | nil => simp [tabsFromPairs]
  | cons p rest ih =>
      obtain ⟨url, title⟩ := p
      simp only [tabsFromPairs]
      by_cases he : url = "" ∨ title = ""
      · rw [if_pos he]
        exact ih
      · rw [if_neg he]
        cases hp : parseURL url with
        | none => exact ih
        | some h =>
            intro tab htab
            rcases List.mem_cons.mp htab with rfl | h2
            · exact ⟨h, hp, rfl⟩
            · exact ih tab h2

theorem parseAppleScriptTabOutput_urls (parseURL : String → Option URLHost)
    (output browser : String) :
    ∀ tab ∈ parseAppleScriptTabOutput parseURL output browser,
      ∃ h, parseURL tab.url = some h ∧ tab.domain = h.hostname := by
  unfold parseAppleScriptTabOutput
  by_cases hout : trimString output = ""
  · rw [if_pos hout]
    intro tab htab
    exact absurd htab (List.not_mem_nil tab)
  · rw [if_neg hout]
    exact tabsFromPairs_urls parseURL browser _

/-- Claim C10: every tab aggregated by `captureTabs` from per-browser
AppleScript parses carries a URL accepted by the URL parser and a
domain equal to that URL's hostname; entries whose URL fails to parse
are omitted rather than surfaced as errors. -/
theorem c10_captureTabs_valid_urls (parseURL : String → Option URLHost)
    (queries : List (Option (String × String))) :
    ∀ tab ∈ captureTabs (queries.map (Option.map
        (fun q => parseAppleScriptTabOutput parseURL q.1 q.2))),
      ∃ h, parseURL tab.url = some h ∧ tab.domain = h.hostname := by
  intro tab htab
  rw [captureTabs, deduplicateTabs] at htab
  have h1 : tab ∈ collectSettled (queries.map (Option.map
      (fun q => parseAppleScriptTabOutput parseURL q.1 q.2))) :=
    (dedupGo_sublist [] _).subset (List.mem_of_mem_take htab)
  obtain ⟨l, hl, htl⟩ := mem_collectSettled h1
  rcases List.mem_map.mp hl with ⟨r, hr, hre⟩
  cases r with
  | none => simp at hre
  | some q =>
      have hq : parseAppleScriptTabOutput parseURL q.1 q.2 = l := by
        simpa using hre
      rw [← hq] at htl
      exact parseAppleScriptTabOutput_urls parseURL q.1 q.2 tab htl

/-- Witness for C10 at one concrete AppleScript output containing a
single parsable URL. -/
theorem c10_witness :
    ∃ h, demoParseURL (BrowserTab.url
        { title := "Page", url := "https://a.com/x", domain := "a.com",
          browser := some "Chrome" }) = some h ∧
      BrowserTab.domain
        { title := "Page", url := "https://a.com/x", domain := "a.com",
          browser := some "Chrome" } = h.hostname :=
  c10_captureTabs_valid_urls demoParseURL [some ("https://a.com/x, Page", "Chrome")]
    _ (by decide)

/-! ## Claim C3 -/

theorem sendLoop_zero (outcomes : Nat → AttemptOutcome) (attempt : Nat)
    (delays : List Nat) (lastErr : Option String) :
    sendLoop outcomes 0 attempt delays lastErr =
      { attempts := attempt - 1, delays := delays.reverse,
        response := { success := false,
                      error := some (lastErr.getD "Unknown error"),
                      statusCode := none } } := rfl

theorem sendLoop_succ (outcomes : Nat → AttemptOutcome) (r attempt : Nat)
    (delays : List Nat) (lastErr : Option String) :
    sendLoop outcomes (r + 1) attempt delays lastErr =
      match outcomes attempt with
      | .success s =>
          { attempts := attempt, delays := delays.reverse,
            response := { success := true, error := none, statusCode := some s } }
      | .httpError s msg =>
          if 400 ≤ s ∧ s < 500 then
            { attempts := attempt, delays := delays.reverse,
              response := { success := false,
                            error := some ("Client error: " ++ toString s),
                            statusCode := some s } }
          else if r = 0 then
            sendLoop outcomes r (attempt + 1) delays (some msg)
          else
            sendLoop outcomes r (attempt + 1)
              (retryDelayMs * 2 ^ (attempt - 1) :: delays) (some msg)
      | .netError msg =>
          if r = 0 then sendLoop outcomes r (attempt + 1) delays (some msg)
          else
            sendLoop outcomes r (attempt + 1)
              (retryDelayMs * 2 ^ (attempt - 1) :: delays) (some msg) := rfl

theorem sendLoop_attempts_le (outcomes : Nat → AttemptOutcome) :
    ∀ (remaining attempt : Nat) (delays : List Nat) (lastErr : Option String),
      1 ≤ attempt →
      (sendLoop outcomes remaining attempt delays lastErr).attempts ≤
        attempt - 1 + remaining := by
  intro remaining
  induction remaining with
  | zero =>
      intro attempt delays lastErr h1
      rw [sendLoop_zero]
      dsimp only
      omega
  | succ r ih =>
      intro attempt delays lastErr h1
      rw [sendLoop_succ]
      cases ho : outcomes attempt with
      | success s => dsimp only; omega
      | httpError s m =>
          dsimp only
          by_cases hc : 400 ≤ s ∧ s < 500
          · rw [if_pos hc]
            dsimp only
            omega
          · rw [if_neg hc]
            by_cases hr : r = 0
            · rw [if_pos hr]
              subst hr
              have := ih (attempt + 1) delays (some m) (by omega)
              omega
            · rw [if_neg hr]
              have := ih (attempt + 1)
                (retryDelayMs * 2 ^ (attempt - 1) :: delays) (some m) (by omega)
              omega
      | netError m =>
          dsimp only
          by_cases hr : r = 0
          · rw [if_pos hr]
            subst hr
            have := ih (attempt + 1) delays (some m) (by omega)
            omega
          · rw [if_neg hr]
            have := ih (attempt + 1)
              (retryDelayMs * 2 ^ (attempt - 1) :: delays) (some m) (by omega)
            omega

theorem sendLoop_client_error (outcomes : Nat → AttemptOutcome)
    (r attempt : Nat) (delays : List Nat) (lastErr : Option String)
    (s : Nat) (m : String) (ho : outcomes attempt = .httpError s m)
    (hs1 : 400 ≤ s) (hs2 : s < 500) :
    sendLoop outcomes (r + 1) attempt delays lastErr =
      { attempts := attempt, delays := delays.reverse,
        response := { success := false,
                      error := some ("Client error: " ++ toString s),
                      statusCode := some s } } := by
  rw [sendLoop_succ, ho]
  dsimp only
  rw [if_pos ⟨hs1, hs2⟩]

theorem sendLoop_retry_step (outcomes : Nat → AttemptOutcome)
    (r attempt : Nat) (delays : List Nat) (lastErr : Option String)
    (hr : r ≠ 0) (h : isRetryableFailure (outcomes attempt) = true) :
    sendLoop outcomes (r + 1) attempt delays lastErr =
      sendLoop outcomes r (attempt + 1)
        (retryDelayMs * 2 ^ (attempt - 1) :: delays)
        (some (outcomeMessage (outcomes attempt))) := by
  rw [sendLoop_succ]
  cases ho : outcomes attempt with
  | success s =>
      rw [ho] at h
      simp [isRetryableFailure] at h
  | httpError s m =>
      have hnc : ¬ (400 ≤ s ∧ s < 500) := by
        rw [ho] at h
        intro hand
        simp [isRetryableFailure, hand.1, hand.2] at h
      dsimp only [outcomeMessage]
      rw [if_neg hnc, if_neg hr]
  | netError m =>
      dsimp only [outcomeMessage]
      rw [if_neg hr]

theorem sendLoop_last_retry (outcomes : Nat → AttemptOutcome)
    (attempt : Nat) (delays : List Nat) (lastErr : Option String)
    (h : isRetryableFailure (outcomes attempt) = true) :
    sendLoop outcomes 1 attempt delays lastErr =
      { attempts := attempt, delays := delays.reverse,
        response := { success := false,
                      error := some (outcomeMessage (outcomes attempt)),
                      statusCode := none } } := by
  rw [show (1 : Nat) = 0 + 1 from rfl, sendLoop_succ]
  cases ho : outcomes attempt with
  | success s =>
      rw [ho] at h
      simp [isRetryableFailure] at h
  | httpError s m =>
      have hnc : ¬ (400 ≤ s ∧ s < 500) := by
        rw [ho] at h
        intro hand
        simp [isRetryableFailure, hand.1, hand.2] at h
      dsimp only [outcomeMessage]
      rw [if_neg hnc, if_pos rfl, sendLoop_zero]
      simp
  | netError m =>
      dsimp only [outcomeMessage]
      rw [if_pos rfl, sendLoop_zero]
      simp

/-- Claim C3: `send` makes at most 3 attempts; the first 4xx response
is terminal — it returns failure immediately with that status code, the
earlier (retryable) failures having each been followed by a backoff of
`retryDelayMs * 2^(attempt-1)`; and when all 3 attempts fail retryably
it returns failure carrying the last error's message after backoffs of
1000ms and 2000ms. -/
theorem c3_send_policy (outcomes : Nat → AttemptOutcome) :
    (send outcomes).attempts ≤ 3 ∧
    (∀ k s m, k < 3 →
      (∀ i, 1 ≤ i → i ≤ k → isRetryableFailure (outcomes i) = true) →
      outcomes (k + 1) = .httpError s m → 400 ≤ s → s < 500 →
      send outcomes =
        { attempts := k + 1,
          delays := (List.range k).map (fun i => retryDelayMs * 2 ^ i),
          response := { success := false,
                        error := some ("Client error: " ++ toString s),
                        statusCode := some s } }) ∧
    ((∀ i, 1 ≤ i → i ≤ 3 → isRetryableFailure (outcomes i) = true) →
      send outcomes =
        { attempts := 3, delays := [1000, 2000],
          response := { success := false,
                        error := some (outcomeMessage (outcomes 3)),
                        statusCode := none } }) := by
  refine ⟨?_, ?_, ?_⟩
  · have h := sendLoop_attempts_le outcomes maxRetries 1 [] none (by omega)
    simpa [send, maxRetries] using h
  · intro k s m hk hretry ho hs1 hs2
    interval_cases k
    · have e : send outcomes = _ :=
        sendLoop_client_error outcomes 2 1 [] none s m ho hs1 hs2
      rw [e]
      simp
    · have h1 := hretry 1 (by omega) (by omega)
      have e1 : send outcomes =
          sendLoop outcomes 2 2 [retryDelayMs * 2 ^ 0]
            (some (outcomeMessage (outcomes 1))) :=
        sendLoop_retry_step outcomes 2 1 [] none (by omega) h1
      have e2 : sendLoop outcomes 2 2 [retryDelayMs * 2 ^ 0]
            (some (outcomeMessage (outcomes 1))) = _ :=
        sendLoop_client_error outcomes 1 2 [retryDelayMs * 2 ^ 0]
          (some (outcomeMessage (outcomes 1))) s m ho hs1 hs2
      rw [e1, e2]
      simp [retryDelayMs]
      decide
    · have h1 := hretry 1 (by omega) (by omega)
      have h2 := hretry 2 (by omega) (by omega)
      have e1 : send outcomes =
          sendLoop outcomes 2 2 [retryDelayMs * 2 ^ 0]
            (some (outcomeMessage (outcomes 1))) :=
        sendLoop_retry_step outcomes 2 1 [] none (by omega) h1
      have e2 : sendLoop outcomes 2 2 [retryDelayMs * 2 ^ 0]
            (some (outcomeMessage (outcomes 1))) =
          sendLoop outcomes 1 3 [retryDelayMs * 2 ^ 1, retryDelayMs * 2 ^ 0]
            (some (outcomeMessage (outcomes 2))) :=
        sendLoop_retry_step outcomes 1 2 [retryDelayMs * 2 ^ 0]
          (some (outcomeMessage (outcomes 1))) (by omega) h2
      have e3 : sendLoop outcomes 1 3
            [retryDelayMs * 2 ^ 1, retryDelayMs * 2 ^ 0]
            (some (outcomeMessage (outcomes 2))) = _ :=
        sendLoop_client_error outcomes 0 3
          [retryDelayMs * 2 ^ 1, retryDelayMs * 2 ^ 0]
          (some (outcomeMessage (outcomes 2))) s m ho hs1 hs2
      rw [e1, e2, e3]
      simp [retryDelayMs]
      decide
  · intro hretry
    have h1 := hretry 1 (by omega) (by omega)
    have h2 := hretry 2 (by omega) (by omega)
    have h3 := hretry 3 (by omega) (by omega)
    have e1 : send outcomes =
        sendLoop outcomes 2 2 [retryDelayMs * 2 ^ 0]
          (some (outcomeMessage (outcomes 1))) :=
      sendLoop_retry_step outcomes 2 1 [] none (by omega) h1
    have e2 : sendLoop outcomes 2 2 [retryDelayMs * 2 ^ 0]
          (some (outcomeMessage (outcomes 1))) =
        sendLoop outcomes 1 3 [retryDelayMs * 2 ^ 1, retryDelayMs * 2 ^ 0]
          (some (outcomeMessage (outcomes 2))) :=
      sendLoop_retry_step outcomes 1 2 [retryDelayMs * 2 ^ 0]
        (some (outcomeMessage (outcomes 1))) (by omega) h2
    have e3 : sendLoop outcomes 1 3
          [retryDelayMs * 2 ^ 1, retryDelayMs * 2 ^ 0]
          (some (outcomeMessage (outcomes 2))) = _ :=
      sendLoop_last_retry outcomes 3
        [retryDelayMs * 2 ^ 1, retryDelayMs * 2 ^ 0]
        (some (outcomeMessage (outcomes 2))) h3
    rw [e1, e2, e3]
    simp [retryDelayMs]

/-- Witness for C3 at a concrete outcome sequence: three network
timeouts exhaust the retries with backoffs 1000ms and 2000ms. -/
theorem c3_witness :
    send (fun _ => .netError "timeout of 10000ms exceeded") =
      { attempts := 3, delays := [1000, 2000],
        response := { success := false,
                      error := some (outcomeMessage
                        ((fun _ => AttemptOutcome.netError
                          "timeout of 10000ms exceeded") 3)),
                      statusCode := none } } :=
  (c3_send_policy (fun _ => .netError "timeout of 10000ms exceeded")).2.2
    (fun _ _ _ => rfl)

/-! ## Claim C9 -/

/-- Claim C9 counterexample: when the frontmost-application query fails
(`appInfo = none`) but the window-title query succeeds, the Active
Window adapter returns `null` overall instead of a result carrying the
captured title. -/
theorem c9_counterexample :
    captureActiveWindow { appInfo := none, windowTitle := some "Report.docx" } = none := rfl

/-- Claim C9 (amended): a window-title query failure nulls out only the
title field (replaced by "Unknown"), but `captureActiveWindow` returns
`null` overall exactly when the application-identity query fails, even
if the window-title query succeeded. -/
theorem c9_captureActiveWindow_amended (w : ActiveWindowWorld) :
    (captureActiveWindow w = none ↔ w.appInfo = none) ∧
    (∀ ai, w.appInfo = some ai →
      captureActiveWindow w =
        some { app := ai.name, title := jsOrDefault w.windowTitle "Unknown",
               bundleId := ai.bundleId }) := by
  cases h : w.appInfo <;> simp [captureActiveWindow, h]

/-- Witness for C9's amended theorem at a concrete world where only the
window-title query fails. -/
theorem c9_witness :
    captureActiveWindow
        { appInfo := some { name := "Safari", bundleId := some "com.apple.Safari" },
          windowTitle := none } =
      some { app := "Safari", title := "Unknown", bundleId := some "com.apple.Safari" } :=
  (c9_captureActiveWindow_amended _).2 _ rfl

/-! ## Claim C4 -/

/-- Claim C4 counterexample: with the blob for "a" present and a failed
delivery outcome, `retryWebhook` still returns `{success: true}`, so its
return value is not the delivery's outcome. -/
theorem c4_counterexample :
    (retryWebhook failResp 5 "a"
        { latestCapture := none, blobs := [("a", some ctx0)], db := [] }).1
      = { success := true, error := none } ∧
    failResp.success = false := by
  constructor
  · rfl
  · rfl

/-- Claim C4 (amended): when the blob for `id` is absent or unparsable,
`retryWebhook` returns `{success: false, error: "Capture not found"}`
and leaves the state untouched; otherwise it re-invokes delivery
synchronously, records the delivery's outcome in the index, and returns
`{success: true}` regardless of that outcome. -/
theorem c4_retryWebhook_amended (resp : WebhookResponse) (now : Int) (id : String)
    (st : AggState) :
    (loadCapture st id = none →
      retryWebhook resp now id st =
        ({ success := false, error := some "Capture not found" }, st)) ∧
    (∀ ctx, loadCapture st id = some ctx →
      retryWebhook resp now id st =
        ({ success := true, error := none }, sendToWebhook resp now id st)) := by
  constructor
  · intro h; simp [retryWebhook, h]
  · intro ctx h; simp [retryWebhook, h]

/-- Witness for C4's amended theorem: retry on an unknown id. -/
theorem c4_witness :
    retryWebhook okResp 0 "missing" emptyState =
      ({ success := false, error := some "Capture not found" }, emptyState) :=
  (c4_retryWebhook_amended okResp 0 "missing" emptyState).1 rfl

/-! ## Claim C2 -/

/-- Claim C2 counterexample: capture "cap1", deliver successfully
(`webhook_sent` becomes true), then run a retry whose delivery fails —
`webhook_sent` reverts from true to false. -/
theorem c2_counterexample :
    (DatabaseHelper.getCapture "cap1"
        (sendToWebhook okResp 11 "cap1"
          (captureContext okWorld .hotkey true true emptyState).2.1).db).map
        (·.webhook_sent) = some true ∧
    (DatabaseHelper.getCapture "cap1"
        (retryWebhook failResp 12 "cap1"
          (sendToWebhook okResp 11 "cap1"
            (captureContext okWorld .hotkey true true emptyState).2.1)).2.db).map
        (·.webhook_sent) = some false := by
  constructor
  · rfl
  · rfl

/-- Claim C2 (amended): `webhook_sent` is written by every completed
delivery attempt with that attempt's outcome — true on success, false
on failure — so it equals the outcome of the most recent completed
attempt and reverts from true to false when a failed attempt follows a
successful one; `webhook_sent_at` is stamped only when the flag is set
to true. -/
theorem c2_webhook_sent_amended (st : AggState) (id : String) (now1 now2 : Int)
    (r1 r2 : WebhookResponse)
    (hrow : (DatabaseHelper.getCapture id st.db).isSome = true) :
    ∃ c1 c2,
      DatabaseHelper.getCapture id (sendToWebhook r1 now1 id st).db = some c1 ∧
      DatabaseHelper.getCapture id
          (sendToWebhook r2 now2 id (sendToWebhook r1 now1 id st)).db = some c2 ∧
      c1.webhook_sent = r1.success ∧
      c1.webhook_sent_at = (if r1.success then some now1 else none) ∧
      c2.webhook_sent = r2.success ∧
      c2.webhook_sent_at = (if r2.success then some now2 else none) := by
  obtain ⟨c, hc⟩ := Option.isSome_iff_exists.mp hrow
  refine ⟨{ c with
            webhook_sent := r1.success,
            webhook_sent_at := if r1.success then some now1 else none },
          { c with
            webhook_sent := r2.success,
            webhook_sent_at := if r2.success then some now2 else none },
          ?_, ?_, rfl, rfl, rfl, rfl⟩
  · rw [sendToWebhook, getCapture_updateWebhookStatus, hc]
    rfl
  · rw [sendToWebhook, sendToWebhook, getCapture_updateWebhookStatus,
        getCapture_updateWebhookStatus, hc]
    rfl

/-- Witness for C2's amended theorem: a successful delivery followed by
a failed one on a one-row index. -/
theorem c2_witness :
    ∃ c1 c2,
      DatabaseHelper.getCapture "0"
          (sendToWebhook okResp 1 "0"
            { latestCapture := none, blobs := [], db := [c5Row 0] }).db = some c1 ∧
      DatabaseHelper.getCapture "0"
          (sendToWebhook failResp 2 "0"
            (sendToWebhook okResp 1 "0"
              { latestCapture := none, blobs := [], db := [c5Row 0] })).db = some c2 ∧
      c1.webhook_sent = okResp.success ∧
      c1.webhook_sent_at = (if okResp.success then some 1 else none) ∧
      c2.webhook_sent = failResp.success ∧
      c2.webhook_sent_at = (if failResp.success then some 2 else none) :=
  c2_webhook_sent_amended _ "0" 1 2 okResp failResp (by decide)

/-! ## Claim C8 -/

/-- Claim C8: within a single `captureContext` call that supplies both
hooks, the event trace begins hide-window, settle, grab, show-window —
the hide hook precedes the screen grab, the show hook follows the grab
on every exit path (including a failed grab and failed durable writes),
and each hook fires exactly once. -/
theorem c8_hooks_ordering (w : CaptureWorld) (method : CaptureMethod)
    (st : AggState) :
    ((captureContext w method true true st).2.2.count Event.hideWindow = 1) ∧
    ((captureContext w method true true st).2.2.count Event.showWindow = 1) ∧
    ((captureContext w method true true st).2.2.count Event.grab = 1) ∧
    ∃ rest, (captureContext w method true true st).2.2 =
      Event.hideWindow :: Event.settle :: Event.grab ::
        Event.showWindow :: rest := by
  cases hb : w.blobWriteError with
  | some msg =>
      refine ⟨?_, ?_, ?_, [], ?_⟩ <;>
        simp [captureContext, hb, List.count_cons, List.count_nil]
  | none =>
      cases hi : w.insertError with
      | some msg =>
          refine ⟨?_, ?_, ?_, [Event.writeBlob w.captureId], ?_⟩ <;>
            simp [captureContext, hb, hi, List.count_cons, List.count_nil]
      | none =>
          refine ⟨?_, ?_, ?_,
            [Event.writeBlob w.captureId, Event.insertRow w.captureId,
             Event.fireWebhook w.captureId], ?_⟩ <;>
            simp [captureContext, hb, hi, List.count_cons, List.count_nil]

/-! ## Claim C1 -/

/-- Claim C1 counterexample: a capture whose blob write succeeds but
whose index insert throws returns failure, yet the JSON blob for the
fresh id exists (no index row does) and the in-memory latest-capture
slot has been overwritten — the call is neither all-or-nothing nor free
of observable effects on failure. -/
theorem c1_counterexample :
    ((captureContext c1World .hotkey false false emptyState).1.success = false) ∧
    loadCapture (captureContext c1World .hotkey false false emptyState).2.1 "cap1"
      = some (assembleContext c1World .hotkey) ∧
    DatabaseHelper.getCapture "cap1"
      (captureContext c1World .hotkey false false emptyState).2.1.db = none ∧
    getLatestCapture (captureContext c1World .hotkey false false emptyState).2.1
      ≠ getLatestCapture emptyState := by
  refine ⟨rfl, rfl, rfl, ?_⟩
  decide

/-- Claim C1 (amended): `captureContext` returns success exactly when
both durable writes succeed, in which case the JSON blob and the index
row for the fresh id both exist and the id is returned; no index row is
ever recorded for a capture whose blob write failed, and a failed call
leaves the index untouched — but it is not effect-free: the
latest-capture slot is always overwritten, and when only the index
insert fails the JSON blob remains. -/
theorem c1_captureContext_amended (w : CaptureWorld) (method : CaptureMethod)
    (hideHook showHook : Bool) (st : AggState)
    (hfresh : DatabaseHelper.getCapture w.captureId st.db = none)
    (hblob : st.blobs.find? (fun b => b.1 == w.captureId) = none) :
    ((captureContext w method hideHook showHook st).1.success = true ↔
      w.blobWriteError = none ∧ w.insertError = none) ∧
    ((captureContext w method hideHook showHook st).1.success = true →
      (captureContext w method hideHook showHook st).1.captureId
        = some w.captureId ∧
      loadCapture (captureContext w method hideHook showHook st).2.1 w.captureId
        = some (assembleContext w method) ∧
      DatabaseHelper.getCapture w.captureId
        (captureContext w method hideHook showHook st).2.1.db ≠ none) ∧
    ((captureContext w method hideHook showHook st).1.success = false →
      (captureContext w method hideHook showHook st).2.1.db = st.db) ∧
    (w.blobWriteError ≠ none →
      (captureContext w method hideHook showHook st).2.1.blobs = st.blobs) ∧
    getLatestCapture (captureContext w method hideHook showHook st).2.1
      = some (assembleContext w method) := by
  cases hb : w.blobWriteError with
  | some msg =>
      refine ⟨?_, ?_, ?_, ?_, ?_⟩ <;>
        simp [captureContext, hb, getLatestCapture]
  | none =>
      cases hi : w.insertError with
      | some msg =>
          refine ⟨?_, ?_, ?_, ?_, ?_⟩ <;>
            simp [captureContext, hb, hi, getLatestCapture, loadCapture,
              List.find?_append, hblob]
      | none =>
          refine ⟨?_, ?_, ?_, ?_, ?_⟩ <;>
            simp [captureContext, hb, hi, getLatestCapture, loadCapture,
              DatabaseHelper.getCapture, DatabaseHelper.insertCapture,
              List.find?_append, hblob, captureInsertData,
              show st.db.find? (fun r => r.id == w.captureId) = none from hfresh]

/-- Witness for C1's amended theorem: a fully successful capture into
an empty aggregator state. -/
theorem c1_witness :
    getLatestCapture (captureContext okWorld .manual true true emptyState).2.1
      = some (assembleContext okWorld .manual) :=
  (c1_captureContext_amended okWorld .manual true true emptyState rfl rfl).2.2.2.2

/-! ## Claim C5 -/

theorem cleanupStep_fold_count (cutoff : Int) (todo : List CaptureRecord) :
    ∀ (st : AggState) (n : Nat),
      (todo.foldl (cleanupStep cutoff) (st, n)).2 =
        n + (todo.filter (fun c => decide (c.timestamp < cutoff))).length := by
  induction todo with
  | nil =>
      intro st n
      simp
  | cons c rest ih =>
      intro st n
      by_cases hc : c.timestamp < cutoff
      · simp only [List.foldl_cons, cleanupStep, if_pos hc]
        rw [ih]
        simp [hc]
        omega
      · simp only [List.foldl_cons, cleanupStep, if_neg hc]
        rw [ih]
        simp [hc]

theorem cleanupStep_fold_db (cutoff : Int) (todo : List CaptureRecord) :
    ∀ (st : AggState) (n : Nat),
      (todo.foldl (cleanupStep cutoff) (st, n)).1.db =
        st.db.filter (fun r =>
          decide (r.id ∉ (todo.filter
            (fun c => decide (c.timestamp < cutoff))).map (·.id))) := by
  induction todo with
  | nil =>
      intro st n
      simp
  | cons c rest ih =>
      intro st n
      by_cases hc : c.timestamp < cutoff
      · simp only [List.foldl_cons, cleanupStep, if_pos hc]
        rw [ih]
        simp only [deleteCaptureOp, DatabaseHelper.deleteCapture]
        rw [List.filter_filter]
        refine List.filter_congr ?_
        intro r hr
        simp [hc, List.mem_cons, not_or, Bool.and_comm]
      · simp only [List.foldl_cons, cleanupStep, if_neg hc]
        rw [ih]
        refine List.filter_congr ?_
        intro r hr
        simp [hc]

theorem cleanupStep_fold_id (cutoff : Int) (todo : List CaptureRecord)
    (h : ∀ c ∈ todo, ¬ c.timestamp < cutoff) :
    ∀ (st : AggState) (n : Nat),
      todo.foldl (cleanupStep cutoff) (st, n) = (st, n) := by
  induction todo with
  | nil =>
      intro st n
      rfl
  | cons c rest ih =>
      intro st n
      rw [List.foldl_cons]
      simp only [cleanupStep, if_neg (h c (List.mem_cons_self c rest))]
      exact ih (fun x hx => h x (List.mem_cons_of_mem _ hx)) st n

theorem insertDesc_perm (r : CaptureRecord) (l : List CaptureRecord) :
    (DatabaseHelper.insertDesc r l).Perm (r :: l) := by
  induction l with
  | nil => simp [DatabaseHelper.insertDesc]
  | cons x xs ih =>
      simp only [DatabaseHelper.insertDesc]
      by_cases h : x.timestamp < r.timestamp
      · rw [if_pos h]
      · rw [if_neg h]
        exact (ih.cons x).trans (List.Perm.swap r x xs)

theorem sortByTimestampDesc_perm (l : List CaptureRecord) :
    (DatabaseHelper.sortByTimestampDesc l).Perm l := by
  induction l with
  | nil => simp [DatabaseHelper.sortByTimestampDesc]
  | cons x xs ih =>
      simp only [DatabaseHelper.sortByTimestampDesc]
      exact (insertDesc_perm x _).trans (ih.cons x)

theorem sortByTimestampDesc_eq_self (l : List CaptureRecord)
    (h : l.Pairwise (fun a b => b.timestamp < a.timestamp)) :
    DatabaseHelper.sortByTimestampDesc l = l := by
  induction l with
  | nil => rfl
  | cons x xs ih =>
      have hx := List.pairwise_cons.mp h
      simp only [DatabaseHelper.sortByTimestampDesc]
      rw [ih hx.2]
      cases xs with
      | nil => rfl
      | cons y ys =>
          simp only [DatabaseHelper.insertDesc]
          rw [if_pos (hx.1 y (List.mem_cons_self y ys))]

/-- Claim C5 counterexample: with 1001 rows (timestamps 1000 down to 0)
and a cutoff of 1, only the oldest row qualifies for deletion, but the
scan `getCaptures(1000)` returns the 1000 newest rows only — the
qualifying row is never scanned, nothing is deleted, the count is 0
instead of 1, and the qualifying row survives. -/
theorem c5_counterexample :
    (cleanupOldCaptures 1 0
        { latestCapture := none, blobs := [], db := c5Db }).deletedCount = 0 ∧
    (cleanupOldCaptures 1 0
        { latestCapture := none, blobs := [], db := c5Db }).state
      = { latestCapture := none, blobs := [], db := c5Db } ∧
    c5Row 0 ∈ c5Db ∧ (c5Row 0).timestamp < 1 - 0 * 86400000 := by
  have hpair : c5Db.Pairwise (fun a b => b.timestamp < a.timestamp) := by
    unfold c5Db
    rw [List.pairwise_map]
    refine List.Pairwise.imp_of_mem ?_ (List.pairwise_lt_range 1001)
    intro a b ha hb hab
    have ha2 := List.mem_range.mp ha
    have hb2 := List.mem_range.mp hb
    simp only [c5Row]
    omega
  have hscan : DatabaseHelper.getCaptures 1000 c5Db =
      (List.range 1000).map (fun i => c5Row (1000 - i)) := by
    rw [DatabaseHelper.getCaptures, sortByTimestampDesc_eq_self c5Db hpair]
    unfold c5Db
    rw [← List.map_take, List.take_range]
    rfl
  have hnoold : ∀ c ∈ DatabaseHelper.getCaptures 1000 c5Db,
      ¬ c.timestamp < 1 - 0 * 86400000 := by
    rw [hscan]
    intro c hcm
    rcases List.mem_map.mp hcm with ⟨i, hi, rfl⟩
    have hi2 := List.mem_range.mp hi
    simp only [c5Row]
    omega
  have hfold := cleanupStep_fold_id (1 - 0 * 86400000)
    (DatabaseHelper.getCaptures 1000 c5Db) hnoold
    { latestCapture := none, blobs := [], db := c5Db } 0
  refine ⟨?_, ?_, ?_, ?_⟩
  · rw [cleanupOldCaptures]
    simp only [hfold]
  · rw [cleanupOldCaptures]
    simp only [hfold]
  · unfold c5Db
    exact List.mem_map.mpr ⟨1000, List.mem_range.mpr (by omega), rfl⟩
  · simp only [c5Row]
    omega

/-- Claim C5 (amended): provided the index holds at most 1000 rows (so
the `getCaptures(1000)` scan covers the whole table) and row ids are
unique, `cleanupOldCaptures(daysOld)` deletes exactly the rows with
timestamp strictly below `now - daysOld*24h`, returns their count, and
vacuums exactly when at least one row was deleted; beyond 1000 rows the
unscanned oldest rows are not touched. -/
theorem c5_cleanupOldCaptures_amended (now daysOld : Int) (st : AggState)
    (hlen : st.db.length ≤ 1000) (hids : (st.db.map (·.id)).Nodup) :
    (cleanupOldCaptures now daysOld st).deletedCount
      = (st.db.filter (fun c =>
          decide (c.timestamp < now - daysOld * 86400000))).length ∧
    (cleanupOldCaptures now daysOld st).state.db
      = st.db.filter (fun c =>
          decide (¬ c.timestamp < now - daysOld * 86400000)) ∧
    ((cleanupOldCaptures now daysOld st).vacuumed = true ↔
      0 < (cleanupOldCaptures now daysOld st).deletedCount) := by
  have hperm : (DatabaseHelper.getCaptures 1000 st.db).Perm st.db := by
    rw [DatabaseHelper.getCaptures, List.take_of_length_le
      (by rw [(sortByTimestampDesc_perm st.db).length_eq]; exact hlen)]
    exact sortByTimestampDesc_perm st.db
  refine ⟨?_, ?_, ?_⟩
  · rw [cleanupOldCaptures]
    simp only [cleanupStep_fold_count]
    rw [(hperm.filter _).length_eq]
    simp
  · rw [cleanupOldCaptures]
    simp only [cleanupStep_fold_db]
    refine List.filter_congr ?_
    intro r hr
    refine decide_eq_decide.mpr (not_congr ?_)
    constructor
    · intro hmem
      rcases List.mem_map.mp hmem with ⟨c, hcf, hcid⟩
      rcases List.mem_filter.mp hcf with ⟨hcs, hcold⟩
      have hcdb : c ∈ st.db := hperm.mem_iff.mp hcs
      have hceq : c = r := List.inj_on_of_nodup_map hids hcdb hr hcid
      rw [← hceq]
      exact of_decide_eq_true hcold
    · intro hold
      refine List.mem_map.mpr ⟨r, ?_, rfl⟩
      exact List.mem_filter.mpr ⟨hperm.mem_iff.mpr hr, decide_eq_true hold⟩
  · rw [cleanupOldCaptures]
    simp

/-- Witness for C5's amended theorem on a two-row index with cutoff 1:
exactly the older row is counted. -/
theorem c5_witness :
    (cleanupOldCaptures 1 0
        { latestCapture := none, blobs := [], db := [c5Row 0, c5Row 5] }).deletedCount
      = ([c5Row 0, c5Row 5].filter (fun c =>
          decide (c.timestamp < 1 - 0 * 86400000))).length :=
  (c5_cleanupOldCaptures_amended 1 0
    { latestCapture := none, blobs := [], db := [c5Row 0, c5Row 5] }
    (by simp) (by decide)).1

end Cosinc
